import Mathlib

/-!
Shallow embedding of the search-and-sync engine of the NearbyBites /
RestaurantFinder widget (main variant: `src/components/NearbyBites/index.tsx`),
together with proofs about its result normalization, client-side filter
pipeline, marker synchronization and search scheduling.

Numbers that the source manipulates as JS numbers (ratings, the 3.5 admission
floor, the user-chosen minimum rating) are embedded as rationals; the concrete
values occurring in the program (3.5, 4.5, 4.2, ...) are exactly representable.
Fallible steps (a JS `TypeError` escaping a callback) are embedded as `Option`,
with `none` for the throw.
-/

namespace NearbyBites

/-- Latitude/longitude pair (`google.maps.LatLng` as consumed by the core). -/
structure LatLng where
  lat : ℚ
  lng : ℚ
deriving DecidableEq, Repr

/-- The `geometry` field of a raw place record: the nested `location` may
itself be absent in a malformed record. -/
structure Geometry where
  location : Option LatLng
deriving DecidableEq, Repr

/-- A raw place record as returned by the places gateway
(`google.maps.places.PlaceResult`, fields consumed by the core).
`place_id` and `name` are required by the provider contract; the remaining
fields are optional and may be absent in a malformed record. -/
structure RawPlace where
  place_id : String
  name : String
  rating : Option ℚ
  user_ratings_total : Option Nat
  vicinity : Option String
  types : Option (List String)
  geometry : Option Geometry
deriving DecidableEq, Repr

/-- The internal `Restaurant` entity (`type Restaurant` in `index.tsx`).
The `location` field is `Option` because the source builds it with
`place.geometry!.location!`, whose non-null assertions are erased at runtime:
a present `geometry` with an absent `location` stores `undefined` here. -/
structure Restaurant where
  place_id : String
  name : String
  rating : Option ℚ
  user_ratings_total : Option Nat
  vicinity : Option String
  types : Option (List String)
  location : Option LatLng
deriving DecidableEq, Repr

/-! ### String helpers: JS `String.prototype.includes` and truthiness -/

/-- Check that the first character list is an initial segment of the second. -/
def leadsAux : List Char → List Char → Bool
  | [], _ => true
  | _ :: _, [] => false
  | c :: cs, d :: ds => c == d && leadsAux cs ds

/-- Check that `needle` occurs contiguously inside `hay`. -/
def hasSubAux (needle : List Char) : List Char → Bool
  | [] => needle.isEmpty
  | c :: tl => leadsAux needle (c :: tl) || hasSubAux needle tl

/-- JS `hay.includes(needle)` on strings. -/
def jsIncludes (hay needle : String) : Bool :=
  hasSubAux needle.toList hay.toList

/-- JS truthiness of a string value: exactly the empty string is falsy. -/
def strTruthy (s : String) : Bool := !s.isEmpty

/-- JS `s.toLowerCase()` (ASCII case mapping, character by character). -/
def strLower (s : String) : String := ⟨s.data.map Char.toLower⟩

/-! ### FilterPipeline (`filteredRestaurants`, `index.tsx` lines 348-354) -/

/-- Embeds `r.name.toLowerCase().includes(searchTerm.toLowerCase()) ||
(r.vicinity && r.vicinity.toLowerCase().includes(searchTerm.toLowerCase()))`.
An absent vicinity, and also an empty-string vicinity (falsy in JS), short out
the second disjunct. -/
def matchesSearch (r : Restaurant) (searchTerm : String) : Bool :=
  jsIncludes (strLower r.name) (strLower searchTerm) ||
    (match r.vicinity with
     | none => false
     | some v => strTruthy v && jsIncludes (strLower v) (strLower searchTerm))

/-- Embeds `!cuisineFilter || (r.types && r.types.some(t =>
t.toLowerCase().includes(cuisineFilter.toLowerCase())))`. An absent `types`
array makes the second disjunct falsy; an empty array is truthy in JS and
yields `some(...) = false`. -/
def matchesCuisine (r : Restaurant) (cuisineFilter : String) : Bool :=
  !strTruthy cuisineFilter ||
    (match r.types with
     | none => false
     | some ts => ts.any fun t => jsIncludes (strLower t) (strLower cuisineFilter))

/-- Embeds `r.rating !== undefined && r.rating >= minRating`. -/
def matchesRating (r : Restaurant) (minRating : ℚ) : Bool :=
  match r.rating with
  | none => false
  | some v => decide (minRating ≤ v)

/-- The display filter pipeline (`filteredRestaurants` in `index.tsx`):
a restaurant is kept iff all three predicates hold. -/
def filteredRestaurants (restaurants : List Restaurant)
    (searchTerm cuisineFilter : String) (minRating : ℚ) : List Restaurant :=
  restaurants.filter fun r =>
    matchesSearch r searchTerm && matchesCuisine r cuisineFilter &&
      matchesRating r minRating

/-! ### Request building (`searchNearby`, `index.tsx` lines 106-112) -/

/-- JS `a || b` for string operands: `a` if truthy, else `b`. -/
def jsOrStr (a b : String) : String := if strTruthy a then a else b

/-- Embeds the `keyword` field `cuisineFilter || searchTerm || undefined`
of the nearby-search request: the final `|| undefined` turns a falsy
(empty-string) result into an absent field. -/
def requestKeyword (cuisineFilter searchTerm : String) : Option String :=
  if strTruthy (jsOrStr cuisineFilter searchTerm) then
    some (jsOrStr cuisineFilter searchTerm)
  else none

/-- The nearby-search request shape consumed by the gateway
(fields of `google.maps.places.PlaceSearchRequest` the core sets). -/
structure SearchRequest where
  center : LatLng
  radius : Nat
  placeType : String
  keyword : Option String
deriving DecidableEq, Repr

/-- Builds the gateway request from the current center, radius and filter
state, as in `searchNearby`. -/
def buildRequest (loc : LatLng) (searchRadius : Nat)
    (cuisineFilter searchTerm : String) : SearchRequest :=
  ⟨loc, searchRadius, "restaurant", requestKeyword cuisineFilter searchTerm⟩

/-! ### ResultNormalizer (`searchNearby` callback, `index.tsx` lines 117-132) -/

/-- Embeds the admission filter `place.rating && place.rating >= 3.5`:
JS truthiness makes both an absent rating and a rating of `0` fail the
left conjunct. -/
def admissible (p : RawPlace) : Bool :=
  match p.rating with
  | none => false
  | some v => decide (v ≠ 0) && decide (mkRat 7 2 ≤ v)

/-- The sort key `(x.rating || 0)`: an absent rating (and a rating of `0`)
reads as `0`. -/
def ratingOr0 (p : RawPlace) : ℚ :=
  match p.rating with
  | none => 0
  | some v => v

/-- Insert a place into a list that is sorted descending by `ratingOr0`,
in front of the first element whose rating is not larger. Folding this over
the input realizes the unique stable order required of
`Array.prototype.sort` (stable since ECMAScript 2019) under the comparator
`(a, b) => (b.rating || 0) - (a.rating || 0)`. -/
def insertByRating (p : RawPlace) : List RawPlace → List RawPlace
  | [] => [p]
  | q :: qs =>
    if ratingOr0 q ≤ ratingOr0 p then p :: q :: qs else q :: insertByRating p qs

/-- Stable descending sort by `ratingOr0`, embedding
`.sort((a, b) => (b.rating || 0) - (a.rating || 0))`. -/
def sortByRating : List RawPlace → List RawPlace
  | [] => []
  | p :: ps => insertByRating p (sortByRating ps)

/-- The field mapping of the normalizer. The source reads
`place.geometry!.location!`; the non-null assertions are erased at runtime, so
an absent `geometry` raises a TypeError (embedded as `none`), while a present
`geometry` whose `location` is absent just passes `undefined` through. -/
def mapPlace (p : RawPlace) : Option Restaurant :=
  match p.geometry with
  | none => none
  | some g =>
    some ⟨p.place_id, p.name, p.rating, p.user_ratings_total, p.vicinity,
      p.types, g.location⟩

/-- Embeds `sorted.map(place => ({...}))`: the mapping is applied to each
element in order, and a TypeError on any element aborts the whole step
(`none`). -/
def mapPlaces : List RawPlace → Option (List Restaurant)
  | [] => some []
  | p :: ps =>
    match mapPlace p, mapPlaces ps with
    | some r, some rs => some (r :: rs)
    | _, _ => none

/-- The whole normalization step of the OK branch: admission filter, stable
descending sort, then the field mapping. A `none` result embeds the TypeError
thrown by `place.geometry!.location!` on a geometry-less admitted record. -/
def normalizeResults (results : List RawPlace) : Option (List Restaurant) :=
  mapPlaces (sortByRating (results.filter admissible))

/-- The sort key of a normalized restaurant (its rating, absent read as 0). -/
def ratingR (r : Restaurant) : ℚ :=
  match r.rating with
  | none => 0
  | some v => v

/-! ### MarkerSynchronizer (`updateMarkers`, `index.tsx` lines 46-94) -/

/-- State of the marker collection. Marker objects are abstracted to fresh
numeric ids: `attached` lists the synchronizer-created markers currently on
the map (in creation order), `refIds` embeds `markersRef.current`, and
`nextId` supplies fresh ids. -/
structure MarkerSt where
  attached : List Nat
  refIds : List Nat
  nextId : Nat
deriving DecidableEq, Repr

/-- The clearing phase of `updateMarkers`:
`markersRef.current.forEach(marker => marker.map = null)` detaches every
marker held in the ref, then `markersRef.current = []` drops the handles. -/
def detachAll (m : MarkerSt) : MarkerSt :=
  { m with
    attached := m.attached.filter (fun i => decide (i ∉ m.refIds)),
    refIds := [] }

/-- The creation phase of `updateMarkers`: one fresh marker per restaurant is
attached to the map and pushed onto the ref. -/
def createMarkers : Nat → MarkerSt → MarkerSt
  | 0, m => m
  | n + 1, m =>
    createMarkers n
      { attached := m.attached ++ [m.nextId],
        refIds := m.refIds ++ [m.nextId],
        nextId := m.nextId + 1 }

/-- Embeds `updateMarkers(restaurants, map)`: clear every previously held
marker, then create one marker per restaurant. -/
def updateMarkers (rs : List Restaurant) (m : MarkerSt) : MarkerSt :=
  createMarkers rs.length (detachAll m)

/-! ### SearchScheduler (`searchNearby` guard, idle listener, completion
callback; `index.tsx` lines 96-193 and the explicit-action handlers) -/

/-- Gateway response status (`google.maps.places.PlacesServiceStatus` as
discriminated by the callback). -/
inductive GStatus where
  | ok
  | zeroResults
  | failed
deriving DecidableEq, Repr

/-- State of the scheduler and of the UI fields it drives. `updating` embeds
`isUpdatingRef.current`; `pendingSearch` the deadline of the debounce timeout
held in `searchTimeoutRef`; `cooldownEnd` the deadline of the
post-completion `setTimeout` that resets the guard; `inFlight` the number of
outstanding gateway calls; `fires` the times at which a gateway call was
actually issued. -/
structure SchedState where
  updating : Bool
  loading : Bool
  errorMsg : Option String
  restaurants : List Restaurant
  markers : MarkerSt
  pendingSearch : Option Nat
  cooldownEnd : Option Nat
  inFlight : Nat
  fires : List Nat
deriving DecidableEq, Repr

/-- Initial component state: guard clear, loading spinner on, nothing held. -/
def initState : SchedState :=
  ⟨false, true, none, [], ⟨[], [], 0⟩, none, none, 0, []⟩

/-- Embeds a call of `searchNearby` at time `t` (`index.tsx` lines 96-116):
if the in-flight guard is set the call returns immediately with no effect at
all; otherwise it sets the guard, enters the loading state, clears the error
and issues one gateway call. -/
def searchNearby (t : Nat) (s : SchedState) : SchedState :=
  if s.updating then s
  else
    { s with
      updating := true, loading := true, errorMsg := none,
      inFlight := s.inFlight + 1, fires := s.fires ++ [t] }

/-- Embeds the `nearbySearch` completion callback (`index.tsx` lines 117-162)
applied at time `t`. In the OK branch a TypeError from the normalizer
(geometry-less admitted record) aborts the callback before `setLoading(false)`
and before the guard-resetting `setTimeout`, so in that case only the
outstanding call is consumed. -/
def applyResponse (st : GStatus) (results : List RawPlace) (t : Nat)
    (s : SchedState) : SchedState :=
  match st with
  | .ok =>
    match normalizeResults results with
    | some out =>
      { s with
        restaurants := out, markers := updateMarkers out s.markers,
        loading := false, inFlight := s.inFlight - 1,
        cooldownEnd := some (t + 1000) }
    | none => { s with inFlight := s.inFlight - 1 }
  | .zeroResults =>
    { s with
      errorMsg := some "No restaurants found in this area. Try adjusting your filters or search radius.",
      restaurants := [], markers := updateMarkers [] s.markers,
      loading := false, inFlight := s.inFlight - 1,
      cooldownEnd := some (t + 1000) }
  | .failed =>
    { s with
      errorMsg := some "Error fetching restaurants. Please try again.",
      restaurants := [], markers := updateMarkers [] s.markers,
      loading := false, inFlight := s.inFlight - 1,
      cooldownEnd := some (t + 1000) }

/-- Events the scheduler reacts to: a viewport-settle (`idle`) event, the
debounce timeout firing, an explicit user action (search button, cuisine
change, radius change, reset, autocomplete selection — each calls
`searchNearby` directly), a gateway response arriving, and the guard-reset
timeout firing. -/
inductive SchedEvent where
  | settle (t : Nat)
  | timerFire (t : Nat)
  | userAction (t : Nat)
  | response (st : GStatus) (results : List RawPlace) (t : Nat)
  | cooldownFire (t : Nat)
deriving DecidableEq, Repr

/-- One step of the scheduler. The `settle` case embeds the idle listener
(`index.tsx` lines 166-193): clear any pending debounce timeout, then, only
when the guard is clear, schedule a new one 1000 ms out. A `timerFire` or
`cooldownFire` only applies when the corresponding timeout is actually
pending with that deadline; a `response` only applies when a call is
outstanding. -/
def applyEvent : SchedEvent → SchedState → SchedState
  | .settle t, s =>
    let s1 := { s with pendingSearch := none }
    if s1.updating then s1 else { s1 with pendingSearch := some (t + 1000) }
  | .timerFire t, s =>
    if s.pendingSearch = some t then searchNearby t { s with pendingSearch := none }
    else s
  | .userAction t, s => searchNearby t s
  | .response st res t, s =>
    if 1 ≤ s.inFlight then applyResponse st res t s else s
  | .cooldownFire t, s =>
    if s.cooldownEnd = some t then { s with cooldownEnd := none, updating := false }
    else s

/-- Fires the earliest timeout whose deadline has passed by time `t`, if any.
At most two timeouts can be pending (the debounce and the guard reset). -/
def fireEarliest (t : Nat) (s : SchedState) : Option SchedState :=
  match s.pendingSearch, s.cooldownEnd with
  | some d, some c =>
    if d ≤ t then
      if c ≤ t then
        if d ≤ c then some (applyEvent (.timerFire d) s)
        else some (applyEvent (.cooldownFire c) s)
      else some (applyEvent (.timerFire d) s)
    else
      if c ≤ t then some (applyEvent (.cooldownFire c) s) else none
  | some d, none => if d ≤ t then some (applyEvent (.timerFire d) s) else none
  | none, some c => if c ≤ t then some (applyEvent (.cooldownFire c) s) else none
  | none, none => none

/-- Fires every timeout due by time `t`. Firing a timeout never schedules a
new one (only a gateway response, an external event, schedules the guard
reset), so two rounds exhaust the two possible pending timeouts. -/
def fireDue (t : Nat) (s : SchedState) : SchedState :=
  match fireEarliest t s with
  | none => s
  | some s1 =>
    match fireEarliest t s1 with
    | none => s1
    | some s2 => s2

/-- Runs a trace of viewport-settle events at the given times (ascending),
letting due timeouts fire before each event and flushing the remaining
timeouts up to `horizon` at the end. -/
def runSettles (settles : List Nat) (horizon : Nat) : SchedState :=
  fireDue horizon
    (settles.foldl (fun s t => applyEvent (.settle t) (fireDue t s)) initState)

/-- Guard invariant of the scheduler: at most one gateway call is in flight;
an outstanding call implies the guard is set; a pending guard-reset timeout
implies no call is outstanding; a clear guard implies no pending guard-reset
timeout. -/
def guardInv (s : SchedState) : Prop :=
  s.inFlight ≤ 1 ∧ (s.inFlight = 1 → s.updating = true) ∧
    (s.cooldownEnd ≠ none → s.inFlight = 0) ∧
    (s.updating = false → s.cooldownEnd = none)

/-- Reachability from the initial component state under scheduler events. -/
inductive Reachable : SchedState → Prop where
  | init : Reachable initState
  | step (e : SchedEvent) {s : SchedState} : Reachable s → Reachable (applyEvent e s)

/-! ### Concrete records used by counterexamples and witnesses -/

/-- Concrete admitted place (rating 4.2 = 21/5) from the spec's end-to-end
test data. -/
def pizzaPlace : RawPlace :=
  ⟨"a", "Pizza Place", some (mkRat 21 5), some 150, some "1 Main St",
    some ["restaurant", "pizza"], some ⟨some ⟨1, 1⟩⟩⟩

/-- Concrete restaurant with an absent rating. -/
def unratedCafe : Restaurant :=
  ⟨"u", "Cafe", none, none, none, none, some ⟨1, 1⟩⟩

/-- Concrete place with an admissible rating but no geometry. -/
def ghostGrill : RawPlace :=
  ⟨"g", "Ghost Grill", some 4, none, none, none, none⟩

/-- Normalized image of `pizzaPlace`. -/
def pizzaRestaurant : Restaurant :=
  ⟨"a", "Pizza Place", some (mkRat 21 5), some 150, some "1 Main St",
    some ["restaurant", "pizza"], some ⟨1, 1⟩⟩

/-- Concrete place with no rating and no geometry (dropped by the admission
filter before the mapping can throw). -/
def unratedDiner : RawPlace :=
  ⟨"b", "Unrated Diner", none, none, none, none, none⟩

/-- Concrete admitted place, rating 4. -/
def tacoTruck : RawPlace :=
  ⟨"d", "Taco Truck", some 4, none, none, none, some ⟨some ⟨2, 2⟩⟩⟩

/-- Concrete admitted place, rating 4.2 = 21/5 (ties with `pizzaPlace`). -/
def sushiBar : RawPlace :=
  ⟨"e", "Sushi Bar", some (mkRat 21 5), none, none, none, some ⟨some ⟨3, 3⟩⟩⟩

/-- Normalized image of `tacoTruck`. -/
def tacoRestaurant : Restaurant :=
  ⟨"d", "Taco Truck", some 4, none, none, none, some ⟨2, 2⟩⟩

/-- Normalized image of `sushiBar`. -/
def sushiRestaurant : Restaurant :=
  ⟨"e", "Sushi Bar", some (mkRat 21 5), none, none, none, some ⟨3, 3⟩⟩

/-! ### Claim C1 — the rating predicate of the FilterPipeline -/

/-- Claim C1, counterexample: an unrated restaurant that passes the
search-term and cuisine predicates is excluded by `filteredRestaurants`
even when `minRating == 0`, where the claim predicts inclusion. -/
theorem C1_counterexample :
    matchesSearch unratedCafe "" = true ∧ matchesCuisine unratedCafe "" = true ∧
      unratedCafe.rating = none ∧
      filteredRestaurants [unratedCafe] "" "" 0 = [] := by
  decide

/-- Claim C1 (amended): a restaurant is displayed iff it is in the working
set, matches the search-term and cuisine predicates, and has a present rating
of at least `minRating`; in particular a restaurant with an absent rating is
excluded for every `minRating`, including `minRating == 0`. -/
theorem C1_rating_filter (rs : List Restaurant) (st cf : String) (mr : ℚ)
    (r : Restaurant) :
    r ∈ filteredRestaurants rs st cf mr ↔
      r ∈ rs ∧ matchesSearch r st = true ∧ matchesCuisine r cf = true ∧
        ∃ v, r.rating = some v ∧ mr ≤ v := by
  simp only [filteredRestaurants, List.mem_filter, Bool.and_eq_true]
  constructor
  · rintro ⟨hm, ⟨hs, hc⟩, hr⟩
    refine ⟨hm, hs, hc, ?_⟩
    cases h : r.rating with
    | none => simp [matchesRating, h] at hr
    | some v =>
      refine ⟨v, rfl, ?_⟩
      simpa [matchesRating, h] using hr
  · rintro ⟨hm, hs, hc, v, hv, hle⟩
    exact ⟨hm, ⟨hs, hc⟩, by simp [matchesRating, hv, hle]⟩

/-! ### Claim C10 — keyword precedence in the gateway request -/

/-- Claim C10: the keyword of every built request is the cuisine filter when
it is a non-empty string, else the search term when it is a non-empty string,
else absent. -/
theorem C10_keyword_precedence (loc : LatLng) (searchRadius : Nat)
    (cuisineFilter searchTerm : String) :
    (buildRequest loc searchRadius cuisineFilter searchTerm).keyword =
      if cuisineFilter ≠ "" then some cuisineFilter
      else if searchTerm ≠ "" then some searchTerm
      else none := by
  have hf : ∀ s : String, ¬s = "" → s.isEmpty = false := by
    intro s h
    cases he : s.isEmpty
    · rfl
    · exact absurd ((String.isEmpty_iff s).mp he) h
  have h0 : ("" : String).isEmpty = true := rfl
  simp only [buildRequest, requestKeyword, jsOrStr, strTruthy]
  by_cases hc : cuisineFilter = ""
  · by_cases hs : searchTerm = ""
    · simp [hc, hs, h0]
    · simp [hc, hs, h0, hf searchTerm hs]
  · by_cases hs : searchTerm = ""
    · simp [hc, hs, h0, hf cuisineFilter hc]
    · simp [hc, hs, hf cuisineFilter hc]


/-! ### Normalizer lemmas -/

theorem mem_insertByRating {q p : RawPlace} {l : List RawPlace} :
    q ∈ insertByRating p l ↔ q = p ∨ q ∈ l := by
  induction l with
  | nil => simp [insertByRating]
  | cons x xs ih =>
    by_cases h : ratingOr0 x ≤ ratingOr0 p
    · simp [insertByRating, h]
    · simp only [insertByRating, if_neg h, List.mem_cons, ih]
      tauto

theorem mem_sortByRating {q : RawPlace} {l : List RawPlace} :
    q ∈ sortByRating l ↔ q ∈ l := by
  induction l with
  | nil => simp [sortByRating]
  | cons x xs ih => simp [sortByRating, mem_insertByRating, ih]

theorem rating_mapPlace {p : RawPlace} {r : Restaurant}
    (h : mapPlace p = some r) : r.rating = p.rating := by
  cases hg : p.geometry with
  | none => rw [mapPlace, hg] at h; exact absurd h (by simp)
  | some g =>
    rw [mapPlace, hg] at h
    injection h with h2
    rw [← h2]

theorem ratingR_mapPlace {p : RawPlace} {r : Restaurant}
    (h : mapPlace p = some r) : ratingR r = ratingOr0 p := by
  rw [ratingR, ratingOr0, rating_mapPlace h]

theorem mapPlaces_mem {l : List RawPlace} {out : List Restaurant}
    (h : mapPlaces l = some out) {r : Restaurant} (hr : r ∈ out) :
    ∃ p, p ∈ l ∧ mapPlace p = some r := by
  induction l generalizing out with
  | nil =>
    simp only [mapPlaces, Option.some.injEq] at h
    subst h
    exact absurd hr (List.not_mem_nil r)
  | cons p ps ih =>
    cases hm : mapPlace p with
    | none => simp [mapPlaces, hm] at h
    | some r0 =>
      cases hms : mapPlaces ps with
      | none => simp [mapPlaces, hm, hms] at h
      | some rs =>
        simp only [mapPlaces, hm, hms, Option.some.injEq] at h
        subst h
        rcases List.mem_cons.mp hr with rfl | hr2
        · exact ⟨p, List.mem_cons_self p ps, hm⟩
        · obtain ⟨q, hq, hmq⟩ := ih hms hr2
          exact ⟨q, List.mem_cons_of_mem p hq, hmq⟩

theorem mapPlaces_isSome {l : List RawPlace}
    (h : ∀ p ∈ l, p.geometry ≠ none) : ∃ out, mapPlaces l = some out := by
  induction l with
  | nil => exact ⟨[], rfl⟩
  | cons p ps ih =>
    obtain ⟨out, hout⟩ := ih fun q hq => h q (List.mem_cons_of_mem p hq)
    cases hg : p.geometry with
    | none => exact absurd hg (h p (List.mem_cons_self p ps))
    | some g =>
      refine ⟨⟨p.place_id, p.name, p.rating, p.user_ratings_total, p.vicinity,
        p.types, g.location⟩ :: out, ?_⟩
      simp [mapPlaces, mapPlace, hg, hout]

theorem mapPlaces_rating_pairwise {l : List RawPlace} {out : List Restaurant}
    (h : mapPlaces l = some out)
    (hp : l.Pairwise fun a b => ratingOr0 b ≤ ratingOr0 a) :
    out.Pairwise fun a b => ratingR b ≤ ratingR a := by
  induction l generalizing out with
  | nil =>
    simp only [mapPlaces, Option.some.injEq] at h
    subst h
    exact List.Pairwise.nil
  | cons p ps ih =>
    cases hm : mapPlace p with
    | none => simp [mapPlaces, hm] at h
    | some r =>
      cases hms : mapPlaces ps with
      | none => simp [mapPlaces, hm, hms] at h
      | some rs =>
        simp only [mapPlaces, hm, hms, Option.some.injEq] at h
        subst h
        rcases List.pairwise_cons.mp hp with ⟨hfst, hrest⟩
        refine List.pairwise_cons.mpr ⟨?_, ih hms hrest⟩
        intro s hs
        obtain ⟨q, hq, hmq⟩ := mapPlaces_mem hms hs
        rw [ratingR_mapPlace hmq, ratingR_mapPlace hm]
        exact hfst q hq

theorem mapPlaces_filter {l : List RawPlace} {out : List Restaurant}
    (h : mapPlaces l = some out) (v : ℚ) :
    mapPlaces (l.filter fun p => decide (ratingOr0 p = v)) =
      some (out.filter fun r => decide (ratingR r = v)) := by
  induction l generalizing out with
  | nil =>
    simp only [mapPlaces, Option.some.injEq] at h
    subst h
    rfl
  | cons p ps ih =>
    cases hm : mapPlace p with
    | none => simp [mapPlaces, hm] at h
    | some r =>
      cases hms : mapPlaces ps with
      | none => simp [mapPlaces, hm, hms] at h
      | some rs =>
        simp only [mapPlaces, hm, hms, Option.some.injEq] at h
        subst h
        have hk : ratingR r = ratingOr0 p := ratingR_mapPlace hm
        by_cases hv : ratingOr0 p = v
        · have hkv : ratingR r = v := by rw [hk, hv]
          simp [List.filter_cons, hv, hkv, mapPlaces, hm, ih hms]
        · have hkv : ¬ ratingR r = v := by rw [hk]; exact hv
          simp [List.filter_cons, hv, hkv, ih hms]

theorem pairwise_insertByRating {p : RawPlace} {l : List RawPlace}
    (h : l.Pairwise fun a b => ratingOr0 b ≤ ratingOr0 a) :
    (insertByRating p l).Pairwise fun a b => ratingOr0 b ≤ ratingOr0 a := by
  induction l with
  | nil => simp [insertByRating]
  | cons x xs ih =>
    rcases List.pairwise_cons.mp h with ⟨hx, hxs⟩
    by_cases hc : ratingOr0 x ≤ ratingOr0 p
    · rw [insertByRating, if_pos hc]
      refine List.pairwise_cons.mpr ⟨?_, h⟩
      intro b hb
      rcases List.mem_cons.mp hb with rfl | hb2
      · exact hc
      · exact le_trans (hx b hb2) hc
    · rw [insertByRating, if_neg hc]
      refine List.pairwise_cons.mpr ⟨?_, ih hxs⟩
      intro b hb
      rcases mem_insertByRating.mp hb with rfl | hb2
      · exact le_of_not_le hc
      · exact hx b hb2

theorem pairwise_sortByRating (l : List RawPlace) :
    (sortByRating l).Pairwise fun a b => ratingOr0 b ≤ ratingOr0 a := by
  induction l with
  | nil => exact List.Pairwise.nil
  | cons x xs ih => exact pairwise_insertByRating ih

theorem filter_insertByRating (p : RawPlace) (l : List RawPlace) (v : ℚ) :
    ((insertByRating p l).filter fun q => decide (ratingOr0 q = v)) =
      if ratingOr0 p = v then
        p :: l.filter fun q => decide (ratingOr0 q = v)
      else l.filter fun q => decide (ratingOr0 q = v) := by
  induction l with
  | nil => by_cases h : ratingOr0 p = v <;> simp [insertByRating, h]
  | cons x xs ih =>
    by_cases hc : ratingOr0 x ≤ ratingOr0 p
    · rw [insertByRating, if_pos hc]
      by_cases hp : ratingOr0 p = v <;> simp [List.filter_cons, hp]
    · rw [insertByRating, if_neg hc]
      by_cases hp : ratingOr0 p = v
      · have hxv : ¬ ratingOr0 x = v := by
          intro hxv
          exact hc (by rw [hxv, hp])
        simp [List.filter_cons, hxv, ih, hp]
      · simp [List.filter_cons, ih, hp]

theorem filter_sortByRating (l : List RawPlace) (v : ℚ) :
    ((sortByRating l).filter fun q => decide (ratingOr0 q = v)) =
      l.filter fun q => decide (ratingOr0 q = v) := by
  induction l with
  | nil => rfl
  | cons x xs ih =>
    rw [sortByRating, filter_insertByRating]
    by_cases hx : ratingOr0 x = v <;> simp [List.filter_cons, hx, ih]

/-! ### Claim C2 — the normalizer on records without geometry -/

/-- Claim C2, counterexample: a record with an admissible rating but no
geometry is not discarded; the normalization step throws on it (`none`
embeds the TypeError raised by `place.geometry!.location!`). -/
theorem C2_counterexample : normalizeResults [ghostGrill] = none := by decide

/-- Claim C2 (amended): the normalizer completes without throwing on every
input whose admitted records (rating present and at least 3.5) all carry a
geometry object; in particular malformed `rating`, `ratingCount`, `address`,
`categories` or a missing `geometry.location` inside a present geometry never
cause a throw. Records whose geometry itself is absent are not discarded:
they make the step throw (see the counterexample). -/
theorem C2_no_throw (results : List RawPlace)
    (h : ∀ p ∈ results, admissible p = true → p.geometry ≠ none) :
    ∃ out, normalizeResults results = some out := by
  unfold normalizeResults
  apply mapPlaces_isSome
  intro p hp
  have h1 := List.mem_filter.mp (mem_sortByRating.mp hp)
  exact h p h1.1 h1.2

/-- Claim C2 witness: the amended theorem applied to a concrete input. -/
theorem C2_witness : ∃ out, normalizeResults [pizzaPlace, unratedDiner] = some out :=
  C2_no_throw [pizzaPlace, unratedDiner] (by decide)

/-! ### Claim C3 — the 3.5 admission floor -/

/-- Claim C3: every restaurant in a successfully normalized output has a
present rating of at least 3.5 (= 7/2); records with an absent or lower
rating never appear. -/
theorem C3_admission_floor (results : List RawPlace) (out : List Restaurant)
    (h : normalizeResults results = some out) (r : Restaurant) (hr : r ∈ out) :
    ∃ v, r.rating = some v ∧ mkRat 7 2 ≤ v := by
  obtain ⟨p, hp, hmap⟩ := mapPlaces_mem h hr
  have h2 := (List.mem_filter.mp (mem_sortByRating.mp hp)).2
  rw [admissible] at h2
  cases hrat : p.rating with
  | none => rw [hrat] at h2; exact absurd h2 (by simp)
  | some v =>
    rw [hrat] at h2
    simp only [Bool.and_eq_true, decide_eq_true_eq] at h2
    exact ⟨v, by rw [rating_mapPlace hmap, hrat], h2.2⟩

/-- Claim C3 witness: the theorem applied to the concrete admitted place. -/
theorem C3_witness : ∃ v, pizzaRestaurant.rating = some v ∧ mkRat 7 2 ≤ v :=
  C3_admission_floor [pizzaPlace] [pizzaRestaurant] (by decide)
    pizzaRestaurant (by decide)

/-! ### Claim C4 — sorted descending, stable among equal ratings -/

/-- Claim C4: a successfully normalized output is sorted descending by rating
(absent read as 0): every adjacent pair `(a, b)` satisfies
`rating(a) >= rating(b)`; and for every rating value `v`, mapping the
equal-rated admitted records in the provider's order yields exactly the
equal-rated output records in output order — equal-rated records keep their
relative provider order. -/
theorem C4_sorted_stable (results : List RawPlace) (out : List Restaurant)
    (h : normalizeResults results = some out) :
    List.Chain' (fun a b => ratingR b ≤ ratingR a) out ∧
      ∀ v : ℚ,
        mapPlaces ((results.filter admissible).filter fun p =>
            decide (ratingOr0 p = v)) =
          some (out.filter fun r => decide (ratingR r = v)) := by
  rw [normalizeResults] at h
  constructor
  · exact (mapPlaces_rating_pairwise h (pairwise_sortByRating _)).chain'
  · intro v
    rw [← filter_sortByRating (results.filter admissible) v]
    exact mapPlaces_filter h v

/-- Claim C4 witness: the theorem applied to a concrete input containing a
rating tie (`pizzaPlace` and `sushiBar`, both 4.2) and a lower-rated record. -/
theorem C4_witness :
    List.Chain' (fun a b => ratingR b ≤ ratingR a)
        [pizzaRestaurant, sushiRestaurant, tacoRestaurant] ∧
      mapPlaces (([tacoTruck, pizzaPlace, sushiBar].filter admissible).filter
          fun p => decide (ratingOr0 p = mkRat 21 5)) =
        some ([pizzaRestaurant, sushiRestaurant, tacoRestaurant].filter
          fun r => decide (ratingR r = mkRat 21 5)) := by
  have h := C4_sorted_stable [tacoTruck, pizzaPlace, sushiBar]
    [pizzaRestaurant, sushiRestaurant, tacoRestaurant] (by decide)
  exact ⟨h.1, h.2 (mkRat 21 5)⟩


/-! ### Marker lemmas -/

theorem createMarkers_attached_len (n : Nat) (m : MarkerSt) :
    (createMarkers n m).attached.length = m.attached.length + n := by
  induction n generalizing m with
  | zero => rfl
  | succ k ih =>
    rw [createMarkers, ih]
    simp
    omega

theorem createMarkers_inv (n : Nat) (m : MarkerSt)
    (h : m.attached = m.refIds) :
    (createMarkers n m).attached = (createMarkers n m).refIds := by
  induction n generalizing m with
  | zero => exact h
  | succ k ih =>
    rw [createMarkers]
    exact ih _ (by simp [h])

theorem detachAll_attached_of_inv (m : MarkerSt)
    (h : m.attached = m.refIds) : (detachAll m).attached = [] := by
  rw [detachAll, h]
  rw [List.filter_eq_nil_iff]
  intro a ha
  simp [ha]

theorem detachAll_detaches (m : MarkerSt) (i : Nat) (hi : i ∈ m.refIds) :
    i ∉ (detachAll m).attached := by
  rw [detachAll]
  intro hmem
  have h2 := (List.mem_filter.mp hmem).2
  simp at h2
  exact h2 hi

/-! ### Claim C8 — marker synchronization -/

/-- Claim C8: provided every live marker is held in the ref (true initially
and re-established by every sync), after `updateMarkers` the number of live
markers equals the restaurant list's length and the invariant holds again
(so a second sync with a shorter list again leaves exactly that many live
markers, none stale); moreover every previously held marker is detached by
the clearing phase, which runs before any marker is created. -/
theorem C8_marker_sync (rs : List Restaurant) (m : MarkerSt)
    (h : m.attached = m.refIds) :
    (updateMarkers rs m).attached.length = rs.length ∧
      (updateMarkers rs m).attached = (updateMarkers rs m).refIds ∧
      ∀ i ∈ m.refIds, i ∉ (detachAll m).attached := by
  refine ⟨?_, ?_, fun i hi => detachAll_detaches m i hi⟩
  · rw [updateMarkers, createMarkers_attached_len, detachAll_attached_of_inv m h]
    simp
  · exact createMarkers_inv _ _ (by rw [detachAll_attached_of_inv m h]; rfl)

/-- Claim C8 witness: the theorem applied to a collection holding two
markers and a one-element restaurant list. -/
theorem C8_witness :
    (updateMarkers [unratedCafe] ⟨[5, 9], [5, 9], 10⟩).attached.length = 1 ∧
      (updateMarkers [unratedCafe] ⟨[5, 9], [5, 9], 10⟩).attached =
        (updateMarkers [unratedCafe] ⟨[5, 9], [5, 9], 10⟩).refIds ∧
      5 ∉ (detachAll ⟨[5, 9], [5, 9], 10⟩).attached := by
  have h := C8_marker_sync [unratedCafe] ⟨[5, 9], [5, 9], 10⟩ rfl
  exact ⟨h.1, h.2.1, h.2.2 5 (by decide)⟩

/-! ### Scheduler invariant -/

theorem guardInv_init : guardInv initState := by
  rw [guardInv]
  refine ⟨by decide, by decide, by simp [initState], by decide⟩

theorem guardInv_searchNearby (t : Nat) (s : SchedState) (h : guardInv s) :
    guardInv (searchNearby t s) := by
  obtain ⟨h1, h2, h3, h4⟩ := h
  by_cases hu : s.updating = true
  · rw [searchNearby, if_pos hu]
    exact ⟨h1, h2, h3, h4⟩
  · have hu0 : s.updating = false := by revert hu; cases s.updating <;> simp
    have hf0 : s.inFlight = 0 := by
      rcases Nat.eq_or_lt_of_le h1 with heq | hlt
    -- if it were 1 the guard would be set, contradicting hu0
      · rw [h2 heq] at hu0; cases hu0
      · omega
    rw [searchNearby, if_neg hu]
    refine ⟨by simp [hf0], fun _ => rfl, fun hc => ?_, fun hff => ?_⟩
    · exact absurd (h4 hu0) hc
    · cases hff

theorem applyResponse_inFlight (st : GStatus) (res : List RawPlace)
    (t : Nat) (s : SchedState) :
    (applyResponse st res t s).inFlight = s.inFlight - 1 := by
  cases st with
  | ok => rw [applyResponse]; cases normalizeResults res <;> rfl
  | zeroResults => rfl
  | failed => rfl

theorem applyResponse_updating (st : GStatus) (res : List RawPlace)
    (t : Nat) (s : SchedState) :
    (applyResponse st res t s).updating = s.updating := by
  cases st with
  | ok => rw [applyResponse]; cases normalizeResults res <;> rfl
  | zeroResults => rfl
  | failed => rfl

theorem applyResponse_fires (st : GStatus) (res : List RawPlace)
    (t : Nat) (s : SchedState) :
    (applyResponse st res t s).fires = s.fires := by
  cases st with
  | ok => rw [applyResponse]; cases normalizeResults res <;> rfl
  | zeroResults => rfl
  | failed => rfl

theorem guardInv_step (e : SchedEvent) (s : SchedState) (h : guardInv s) :
    guardInv (applyEvent e s) := by
  obtain ⟨h1, h2, h3, h4⟩ := h
  cases e with
  | settle t =>
    simp only [applyEvent]
    split
    · exact ⟨h1, h2, h3, h4⟩
    · exact ⟨h1, h2, h3, h4⟩
  | timerFire t =>
    simp only [applyEvent]
    split
    · exact guardInv_searchNearby t _ ⟨h1, h2, h3, h4⟩
    · exact ⟨h1, h2, h3, h4⟩
  | userAction t => exact guardInv_searchNearby t s ⟨h1, h2, h3, h4⟩
  | response st res t =>
    simp only [applyEvent]
    split
    · rename_i hf
      have hfe : s.inFlight = 1 := by omega
      have hupd : s.updating = true := h2 hfe
      refine ⟨?_, fun _ => ?_, fun _ => ?_, fun hff => ?_⟩
      · rw [applyResponse_inFlight]; omega
      · rw [applyResponse_updating]; exact hupd
      · rw [applyResponse_inFlight]; omega
      · rw [applyResponse_updating, hupd] at hff; cases hff
    · exact ⟨h1, h2, h3, h4⟩
  | cooldownFire t =>
    simp only [applyEvent]
    split
    · rename_i hc2
      have hf0 : s.inFlight = 0 := h3 (by rw [hc2]; simp)
      refine ⟨?_, fun h1' => ?_, fun hcc => ?_, fun _ => rfl⟩
      · exact h1
      · have hh : s.inFlight = 1 := h1'
        exact absurd hh (by omega)
      · exact absurd rfl hcc
    · exact ⟨h1, h2, h3, h4⟩

theorem reachable_guardInv (s : SchedState) (h : Reachable s) : guardInv s := by
  induction h with
  | init => exact guardInv_init
  | step e hs ih => exact guardInv_step e _ ih

/-! ### Claim C6 — at most one gateway call in flight -/

/-- Claim C6: in every reachable scheduler state at most one gateway call is
outstanding, and while one is outstanding an explicit user action (including
an explicit refresh) is a complete no-op — in particular it issues no second
concurrent gateway call. The model covers every call path through
`searchNearby`; the one-shot bootstrap request of the initial page load sits
outside the scheduler. -/
theorem C6_single_flight (s : SchedState) (h : Reachable s) :
    s.inFlight ≤ 1 ∧
      (s.inFlight = 1 → ∀ t, applyEvent (.userAction t) s = s) := by
  have hi := reachable_guardInv s h
  refine ⟨hi.1, fun h1 t => ?_⟩
  have hu := hi.2.1 h1
  simp [applyEvent, searchNearby, hu]

/-- Claim C6 witness: the theorem applied to the reachable state in which an
explicit search at time 0 is in flight; a refresh at time 7 changes nothing. -/
theorem C6_witness :
    (applyEvent (.userAction 0) initState).inFlight ≤ 1 ∧
      applyEvent (.userAction 7) (applyEvent (.userAction 0) initState) =
        applyEvent (.userAction 0) initState := by
  have h := C6_single_flight (applyEvent (.userAction 0) initState)
    (Reachable.step _ Reachable.init)
  exact ⟨h.1, h.2 (by decide) 7⟩

/-! ### Claim C5 — the post-completion cooldown and explicit actions -/

/-- Claim C5, counterexample: a search issued at time 0 completes at time 100,
scheduling the guard reset for time 1100; an explicit user action at time 600
— inside the cooldown window — issues no search (`fires` stays `[0]`), where
the claim predicts it still issues one. -/
theorem C5_counterexample :
    (applyEvent (.response .ok [] 100)
        (applyEvent (.userAction 0) initState)).cooldownEnd = some 1100 ∧
      (applyEvent (.userAction 600)
        (applyEvent (.response .ok [] 100)
          (applyEvent (.userAction 0) initState))).fires = [0] := by
  decide

/-- Claim C5 (amended): the post-completion cooldown suppresses explicit user
actions exactly as it suppresses idle-triggered searches, because the guard
flag is tested at the top of `searchNearby` on every call path: completion
leaves the guard set, and until the cooldown timeout fires, any explicit
user action is a complete no-op. -/
theorem C5_cooldown_blocks (s : SchedState) (st : GStatus)
    (res : List RawPlace) (t u : Nat) (hf : 1 ≤ s.inFlight)
    (hu : s.updating = true) :
    (applyEvent (.response st res t) s).updating = true ∧
      applyEvent (.userAction u) (applyEvent (.response st res t) s) =
        applyEvent (.response st res t) s := by
  have hupd : (applyEvent (.response st res t) s).updating = true := by
    show (if 1 ≤ s.inFlight then applyResponse st res t s else s).updating = true
    rw [if_pos hf, applyResponse_updating]
    exact hu
  refine ⟨hupd, ?_⟩
  have heq : applyEvent (.userAction u) (applyEvent (.response st res t) s) =
      searchNearby u (applyEvent (.response st res t) s) := rfl
  rw [heq, searchNearby, if_pos hupd]

/-- Claim C5 witness: the amended theorem applied to the concrete in-flight
state of the counterexample trace. -/
theorem C5_witness :
    (applyEvent (.response .ok [] 100)
        (applyEvent (.userAction 0) initState)).updating = true ∧
      applyEvent (.userAction 600)
          (applyEvent (.response .ok [] 100)
            (applyEvent (.userAction 0) initState)) =
        applyEvent (.response .ok [] 100)
          (applyEvent (.userAction 0) initState) :=
  C5_cooldown_blocks (applyEvent (.userAction 0) initState) .ok [] 100 600
    (by decide) (by decide)

/-! ### Claim C7 — debounce of a settle burst -/

/-- Claim C7: for viewport-settle events at 0 ms, 200 ms and 400 ms with the
1000 ms debounce window and no search in flight, exactly one search fires,
at 1400 ms: each settle clears and restarts the pending timeout, so only the
last one survives. -/
theorem C7_debounce_burst : (runSettles [0, 200, 400] 10000).fires = [1400] := by
  decide

/-! ### Claim C9 — recovery from a gateway error -/

/-- Claim C9: a gateway response with the error status (neither OK nor
ZERO_RESULTS) arriving for an outstanding call clears the working restaurant
set and the marker collection, sets a non-null error message, clears the
loading flag, and leaves the system able to search again: once the guard
reset fires at `t + 1000`, an explicit user action issues a new gateway
call. -/
theorem C9_gateway_error (s : SchedState) (res : List RawPlace) (t u : Nat)
    (h1 : 1 ≤ s.inFlight) (h2 : s.markers.attached = s.markers.refIds) :
    (applyEvent (.response .failed res t) s).restaurants = [] ∧
      (applyEvent (.response .failed res t) s).markers.attached = [] ∧
      (applyEvent (.response .failed res t) s).errorMsg.isSome = true ∧
      (applyEvent (.response .failed res t) s).loading = false ∧
      (applyEvent (.userAction u) (applyEvent (.cooldownFire (t + 1000))
          (applyEvent (.response .failed res t) s))).fires =
        (applyEvent (.response .failed res t) s).fires ++ [u] := by
  have hmark : (updateMarkers ([] : List Restaurant) s.markers).attached = [] := by
    rw [updateMarkers]
    exact detachAll_attached_of_inv s.markers h2
  have hresp : applyEvent (.response .failed res t) s = applyResponse .failed res t s := by
    show (if 1 ≤ s.inFlight then applyResponse .failed res t s else s) =
      applyResponse .failed res t s
    rw [if_pos h1]
  rw [hresp]
  refine ⟨rfl, hmark, rfl, rfl, ?_⟩
  have hcool : applyEvent (.cooldownFire (t + 1000)) (applyResponse .failed res t s) =
      { applyResponse .failed res t s with cooldownEnd := none, updating := false } := by
    show (if (applyResponse .failed res t s).cooldownEnd = some (t + 1000)
        then { applyResponse .failed res t s with cooldownEnd := none, updating := false }
        else applyResponse .failed res t s) = _
    rw [if_pos (show (applyResponse .failed res t s).cooldownEnd = some (t + 1000)
      from rfl)]
  rw [hcool]
  have husr : applyEvent (.userAction u)
      { applyResponse .failed res t s with cooldownEnd := none, updating := false } =
      searchNearby u
        { applyResponse .failed res t s with cooldownEnd := none, updating := false } := rfl
  rw [husr, searchNearby, if_neg (by exact Bool.false_ne_true)]

/-- Claim C9 witness: the theorem applied to the reachable state in which an
explicit search at time 0 is in flight and the gateway fails at time 100. -/
theorem C9_witness :
    (applyEvent (.response .failed [] 100)
        (applyEvent (.userAction 0) initState)).restaurants = [] ∧
      (applyEvent (.response .failed [] 100)
        (applyEvent (.userAction 0) initState)).markers.attached = [] ∧
      (applyEvent (.response .failed [] 100)
        (applyEvent (.userAction 0) initState)).errorMsg.isSome = true ∧
      (applyEvent (.response .failed [] 100)
        (applyEvent (.userAction 0) initState)).loading = false ∧
      (applyEvent (.userAction 2000) (applyEvent (.cooldownFire (100 + 1000))
          (applyEvent (.response .failed [] 100)
            (applyEvent (.userAction 0) initState)))).fires =
        (applyEvent (.response .failed [] 100)
          (applyEvent (.userAction 0) initState)).fires ++ [2000] :=
  C9_gateway_error (applyEvent (.userAction 0) initState) [] 100 2000
    (by decide) (by decide)

end NearbyBites
